import Mathlib

set_option maxHeartbeats 1000000

/- Verification of the provisioning and connection layer of the
myexporter repository (a ClickHouse-backed OpenTelemetry exporter):
a shallow embedding of buildDSN, createDatabase, the clause builders,
the SQL template rendering, the exporter lifecycle and the push paths,
with theorems checking the specification's claims against them. -/

namespace Myexporter

/-- A query-parameter map: Go's url.Values as used by the source
(Query / Set / Has, each key holding one value).  Represented as a
finite-support-free map from key to optional value. -/
def QueryMap : Type := String → Option String

/-- Go url.Values.Set: replace the value associated with a key. -/
def QueryMap.set (q : QueryMap) (k v : String) : QueryMap :=
  fun k' => if k' = k then some v else q k'

/-- Go url.Values.Has: whether a key is present. -/
def QueryMap.has (q : QueryMap) (k : String) : Bool :=
  (q k).isSome

/-- The parts of a parsed net/url URL that the exporter reads or
writes: scheme, user info, host, path and the parsed query (RawQuery
is represented by its parsed form; re-serialization via String() is
not needed by any claim, which all speak of URI components). -/
structure URL where
  scheme : String
  host : String
  path : String
  query : QueryMap
  user : Option (String × String)

/-- The exporter configuration (config.go, final shape).  Fields that
only feed log formatting (Prefix, Detailed) and the collector plumbing
sub-configs (timeout/retry/queue) are omitted: no modelled function
branches on them. -/
structure Config where
  endpoint : String
  username : String
  password : String
  database : String
  tableName : String
  connectionParams : String → Option String
  createSchema : Bool
  compress : String
  asyncInsert : Bool
  ttl : Int
  ttlDays : Int
  tracesTableName : String
  logsTableName : String
  tableEngine : String
  clusterName : String

/-- The two configuration failures of buildDSN (clickhouse.go):
"endpoint must be specified" and "invalid endpoint format". -/
inductive DSNError where
  | missingEndpoint
  | invalidEndpoint
deriving DecidableEq

/-- The for-range loop in buildDSN that calls queryParams.Set for
every entry of cfg.ConnectionParams: keys of a Go map are distinct, so
the loop's effect is the overlay of the map over the base query. -/
def applyConnectionParams (params : String → Option String) (q : QueryMap) : QueryMap :=
  fun k =>
    match params k with
    | some v => some v
    | none => q k

/-- buildDSN (clickhouse.go): builds the connection URI from the
configuration plus an optional database-name override.  url.Parse is
passed in as `parse` (an external library call); the function returns
the final URL value (the source returns its serialization). -/
def buildDSN (parse : String → Option URL) (cfg : Config) (database : String) :
    Except DSNError URL :=
  if cfg.endpoint = "" then
    .error .missingEndpoint
  else
    match parse cfg.endpoint with
    | none => .error .invalidEndpoint
    | some dsnURL =>
      let q1 := applyConnectionParams cfg.connectionParams dsnURL.query
      let q2 := if dsnURL.scheme = "https" then q1.set "secure" "true" else q1
      let q3 :=
        if q2.has "compress" = false ∧ (cfg.compress = "" ∨ cfg.compress = "true") then
          q2.set "compress" "lz4"
        else if q2.has "compress" = false then
          q2.set "compress" cfg.compress
        else q2
      let q4 :=
        if q3.has "async_insert" = false then
          q3.set "async_insert" (if cfg.asyncInsert then "true" else "false")
        else q3
      let p1 := if cfg.database ≠ "" then cfg.database else dsnURL.path
      let p2 := if database ≠ "" then database else p1
      let p3 := if database = "" ∧ cfg.database = "" ∧ p2 = "" then "default" else p2
      let u := if cfg.username ≠ "" then some (cfg.username, cfg.password) else dsnURL.user
      .ok { dsnURL with path := p3, query := q4, user := u }

/-- C7: the Connection-String Builder fails exactly on an empty
endpoint (missing-endpoint error) or an unparseable endpoint
(invalid-endpoint error); on every other input it produces a
connection URI. -/
theorem buildDSN_error_characterization
    (parse : String → Option URL) (cfg : Config) (database : String) :
    (buildDSN parse cfg database = .error .missingEndpoint ↔ cfg.endpoint = "")
    ∧ (buildDSN parse cfg database = .error .invalidEndpoint
        ↔ cfg.endpoint ≠ "" ∧ parse cfg.endpoint = none)
    ∧ ((∃ u, buildDSN parse cfg database = .ok u)
        ↔ cfg.endpoint ≠ "" ∧ (parse cfg.endpoint).isSome) := by
  unfold buildDSN
  by_cases he : cfg.endpoint = "" <;> simp [he]
  cases hp : parse cfg.endpoint <;> simp [hp]

/-- C4: precedence of the effective database path component of the
built connection string: non-empty override parameter over non-empty
`database` field over the URI's own non-empty path over the
well-known default name "default". -/
theorem buildDSN_database_precedence
    (parse : String → Option URL) (cfg : Config) (database : String) (u : URL)
    (hne : cfg.endpoint ≠ "") (hp : parse cfg.endpoint = some u) :
    (buildDSN parse cfg database).toOption.map URL.path =
      some (if database ≠ "" then database
            else if cfg.database ≠ "" then cfg.database
            else if u.path ≠ "" then u.path
            else "default") := by
  unfold buildDSN
  simp only [hne, hp, if_neg hne]
  by_cases hd : database = "" <;>
    by_cases hc : cfg.database = "" <;>
      by_cases hu : u.path = "" <;>
        simp [hd, hc, hu, Except.toOption]

/-- C6: the query parameters of the built connection string are
layered: base = the URI's own query, overridden by connectionParams
entries, then forced values win — secure=true whenever the scheme is
https, the compression hint only when no compress key is present, the
async-insert hint only when no async_insert key is present. -/
theorem buildDSN_query_layering
    (parse : String → Option URL) (cfg : Config) (database : String) (u : URL)
    (hne : cfg.endpoint ≠ "") (hp : parse cfg.endpoint = some u) :
    ∃ r, buildDSN parse cfg database = .ok r ∧
      (∀ k v, cfg.connectionParams k = some v →
        applyConnectionParams cfg.connectionParams u.query k = some v) ∧
      (∀ k, cfg.connectionParams k = none →
        applyConnectionParams cfg.connectionParams u.query k = u.query k) ∧
      (∀ k, k ≠ "secure" → k ≠ "compress" → k ≠ "async_insert" →
        r.query k = applyConnectionParams cfg.connectionParams u.query k) ∧
      (u.scheme = "https" → r.query "secure" = some "true") ∧
      (u.scheme ≠ "https" →
        r.query "secure" = applyConnectionParams cfg.connectionParams u.query "secure") ∧
      (∀ v, applyConnectionParams cfg.connectionParams u.query "compress" = some v →
        r.query "compress" = some v) ∧
      (applyConnectionParams cfg.connectionParams u.query "compress" = none →
        r.query "compress" =
          some (if cfg.compress = "" ∨ cfg.compress = "true" then "lz4" else cfg.compress)) ∧
      (∀ v, applyConnectionParams cfg.connectionParams u.query "async_insert" = some v →
        r.query "async_insert" = some v) ∧
      (applyConnectionParams cfg.connectionParams u.query "async_insert" = none →
        r.query "async_insert" = some (if cfg.asyncInsert then "true" else "false")) := by
  unfold buildDSN
  simp only [hp, if_neg hne]
  refine ⟨_, rfl, ?_, ?_, ?_, ?_, ?_, ?_, ?_, ?_, ?_⟩
  · intro k v h
    simp [applyConnectionParams, h]
  · intro k h
    simp [applyConnectionParams, h]
  · intro k h1 h2 h3
    dsimp only
    split_ifs <;> simp [QueryMap.set, h1, h2, h3]
  · intro hs
    dsimp only
    split_ifs <;> simp_all [QueryMap.set, QueryMap.has]
  · intro hs
    dsimp only
    split_ifs <;> simp_all [QueryMap.set, QueryMap.has]
  · intro v hv
    dsimp only
    split_ifs <;> simp_all [QueryMap.set, QueryMap.has]
  · intro hv
    dsimp only
    split_ifs <;> simp_all [QueryMap.set, QueryMap.has]
  · intro v hv
    dsimp only
    split_ifs <;> simp_all [QueryMap.set, QueryMap.has]
  · intro hv
    dsimp only
    split_ifs <;> simp_all [QueryMap.set, QueryMap.has]

/-- A concrete parsed endpoint for witnesses: plain-text scheme, a URI
path of its own, one pre-existing query parameter. -/
def urlA : URL :=
  { scheme := "tcp", host := "h:9000", path := "/uripath",
    query := fun k => if k = "base" then some "b0" else none, user := none }

/-- A parse oracle recognising exactly the witness endpoint. -/
def parseA : String → Option URL :=
  fun s => if s = "tcp://h:9000/uripath" then some urlA else none

/-- A concrete configuration for witnesses: endpoint matching parseA,
a configured database, one extra connection parameter. -/
def cfgA : Config :=
  { endpoint := "tcp://h:9000/uripath", username := "u", password := "p",
    database := "cfgdb", tableName := "",
    connectionParams := fun k => if k = "extra" then some "1" else none,
    createSchema := true, compress := "", asyncInsert := true,
    ttl := 0, ttlDays := 0, tracesTableName := "", logsTableName := "",
    tableEngine := "", clusterName := "" }

/-- Witness for C4: with override "odb", configured database "cfgdb"
and URI path "/uripath" all set, the override wins. -/
theorem buildDSN_database_precedence_witness :
    (buildDSN parseA cfgA "odb").toOption.map URL.path = some "odb" := by
  have h := buildDSN_database_precedence parseA cfgA "odb" urlA (by decide) rfl
  simpa using h

/-- A concrete https endpoint for the query-layering witness. -/
def urlB : URL :=
  { scheme := "https", host := "h:8443", path := "",
    query := fun k => if k = "keep" then some "v0" else none, user := none }

/-- A parse oracle recognising exactly the https witness endpoint. -/
def parseB : String → Option URL :=
  fun s => if s = "https://h:8443" then some urlB else none

/-- Configuration for the query-layering witness: one connection
parameter, default compression, async insert disabled. -/
def cfgB : Config :=
  { endpoint := "https://h:8443", username := "", password := "",
    database := "otel", tableName := "",
    connectionParams := fun k => if k = "dial_timeout" then some "5s" else none,
    createSchema := true, compress := "", asyncInsert := false,
    ttl := 0, ttlDays := 0, tracesTableName := "", logsTableName := "",
    tableEngine := "", clusterName := "" }

/-- Witness for C6: on the https witness endpoint the secure flag is
forced to true, the compression and async-insert hints are filled in
because absent, and base and connectionParams entries survive. -/
theorem buildDSN_query_layering_witness :
    ∃ r, buildDSN parseB cfgB "db2" = .ok r ∧
      r.query "secure" = some "true" ∧
      r.query "compress" = some "lz4" ∧
      r.query "async_insert" = some "false" ∧
      r.query "keep" = some "v0" ∧
      r.query "dial_timeout" = some "5s" := by
  obtain ⟨r, hok, _, _, h3, h4, _, _, h7, _, h9⟩ :=
    buildDSN_query_layering parseB cfgB "db2" urlB (by decide) rfl
  refine ⟨r, hok, h4 rfl, ?_, ?_, ?_, ?_⟩
  · have := h7 (by decide)
    simpa using this
  · have := h9 (by decide)
    simpa using this
  · have := h3 "keep" (by decide) (by decide) (by decide)
    rw [this]
    decide
  · have := h3 "dial_timeout" (by decide) (by decide) (by decide)
    rw [this]
    decide

/-- getLogsTableName (logs exporter): the configured logs table name,
falling back to "otel_logs". -/
def getLogsTableName (cfg : Config) : String :=
  if cfg.logsTableName ≠ "" then cfg.logsTableName else "otel_logs"

/-- buildLogsEngineClause (logs exporter): Distributed engine over the
cluster addressing the per-shard local logs table when a cluster is
configured, MergeTree otherwise. -/
def buildLogsEngineClause (cfg : Config) : String :=
  if cfg.clusterName ≠ "" then
    "Distributed(" ++ cfg.clusterName ++ ", " ++ cfg.database ++ ", "
      ++ getLogsTableName cfg ++ "_local, rand())"
  else
    "MergeTree()"

/-- buildClusterClause (logs exporter): ON CLUSTER fragment when a
cluster is configured, empty otherwise. -/
def buildClusterClause (cfg : Config) : String :=
  if cfg.clusterName ≠ "" then "ON CLUSTER " ++ cfg.clusterName else ""

/-- buildTTLClause (logs exporter): day-based TTL clause over the
Timestamp column when ttlDays is positive, empty otherwise. -/
def buildTTLClause (cfg : Config) : String :=
  if 0 < cfg.ttlDays then
    "TTL toDateTime(Timestamp) + toIntervalDay(" ++ toString cfg.ttlDays ++ ")"
  else
    ""

/-- buildMetricsEngineClause (metrics exporter): the distributed form
hard-wires the metrics signal's table name "otel_metrics". -/
def buildMetricsEngineClause (cfg : Config) : String :=
  if cfg.clusterName ≠ "" then
    "Distributed(" ++ cfg.clusterName ++ ", " ++ cfg.database ++ ", "
      ++ "otel_metrics" ++ "_local, rand())"
  else
    "MergeTree()"

/-- buildClusterClause (metrics exporter): same body as the logs
exporter's method of the same name. -/
def buildMetricsClusterClause (cfg : Config) : String :=
  if cfg.clusterName ≠ "" then "ON CLUSTER " ++ cfg.clusterName else ""

/-- buildTTLClause (metrics exporter): TTL over the TimeUnix column. -/
def buildMetricsTTLClause (cfg : Config) : String :=
  if 0 < cfg.ttlDays then
    "TTL toDateTime(TimeUnix) + toIntervalDay(" ++ toString cfg.ttlDays ++ ")"
  else
    ""

/-- C3: cluster gating — empty clusterName gives an empty cluster
clause and the single-node MergeTree engine for both signals;
non-empty clusterName gives a non-empty cluster clause and a
distributed engine addressing the signal's effective table name with
the _local suffix (the configurable logs table name for logs, the
fixed "otel_metrics" for metrics). -/
theorem clause_builders_cluster_gating (cfg : Config) :
    (cfg.clusterName = "" →
      buildClusterClause cfg = "" ∧ buildMetricsClusterClause cfg = "" ∧
      buildLogsEngineClause cfg = "MergeTree()" ∧
      buildMetricsEngineClause cfg = "MergeTree()")
    ∧ (cfg.clusterName ≠ "" →
      buildClusterClause cfg ≠ "" ∧ buildMetricsClusterClause cfg ≠ "" ∧
      buildLogsEngineClause cfg =
        "Distributed(" ++ cfg.clusterName ++ ", " ++ cfg.database ++ ", "
          ++ (getLogsTableName cfg ++ "_local") ++ ", rand())" ∧
      buildMetricsEngineClause cfg =
        "Distributed(" ++ cfg.clusterName ++ ", " ++ cfg.database ++ ", "
          ++ ("otel_metrics" ++ "_local") ++ ", rand())") := by
  constructor
  · intro h
    simp [buildClusterClause, buildMetricsClusterClause, buildLogsEngineClause,
      buildMetricsEngineClause, h]
  · intro h
    refine ⟨?_, ?_, ?_, ?_⟩
    · simp only [buildClusterClause, if_pos h]
      intro hcontra
      have := congrArg String.data hcontra
      simp [String.data_append] at this
    · simp only [buildMetricsClusterClause, if_pos h]
      intro hcontra
      have := congrArg String.data hcontra
      simp [String.data_append] at this
    · simp only [buildLogsEngineClause, if_pos h, String.append_assoc,
        show ("_local" : String) ++ ", rand())" = "_local, rand())" from rfl]
    · simp only [buildMetricsEngineClause, if_pos h, String.append_assoc,
        show ("_local" : String) ++ ", rand())" = "_local, rand())" from rfl]

/-- A configuration with a cluster name and a custom logs table name,
for the cluster-gating witness. -/
def cfgC : Config :=
  { endpoint := "", username := "", password := "",
    database := "otel", tableName := "",
    connectionParams := fun _ => none,
    createSchema := true, compress := "", asyncInsert := true,
    ttl := 0, ttlDays := 0, tracesTableName := "", logsTableName := "mylogs",
    tableEngine := "", clusterName := "c1" }

/-- Witness for C3: with clusterName "c1" the cluster clauses are
non-empty and both engine clauses are the distributed form referencing
a _local suffixed table name. -/
theorem clause_builders_cluster_gating_witness :
    buildClusterClause cfgC ≠ "" ∧ buildMetricsClusterClause cfgC ≠ "" ∧
    buildLogsEngineClause cfgC =
      "Distributed(c1, otel, " ++ ("mylogs" ++ "_local") ++ ", rand())" ∧
    buildMetricsEngineClause cfgC =
      "Distributed(c1, otel, " ++ ("otel_metrics" ++ "_local") ++ ", rand())" := by
  have h := (clause_builders_cluster_gating cfgC).2 (by decide)
  refine ⟨h.1, h.2.1, ?_, ?_⟩
  · rw [h.2.2.1]
    decide
  · rw [h.2.2.2]
    decide

/-- Go time.Second in nanoseconds (time.Duration is an int64 count of
nanoseconds). -/
def timeSecond : Int := 1000000000

/-- Go time.Minute. -/
def timeMinute : Int := 60 * timeSecond

/-- Go time.Hour. -/
def timeHour : Int := 60 * timeMinute

/-- GenerateTTLExpr (internal package): renders a TTL clause for a
positive duration, choosing days, then hours, then minutes when they
divide evenly, defaulting to (truncated) seconds; empty string for a
non-positive duration. -/
def GenerateTTLExpr (ttl : Int) (timeField : String) : String :=
  if 0 < ttl then
    if ttl % (24 * timeHour) = 0 then
      "TTL " ++ timeField ++ " + toIntervalDay(" ++ toString (ttl / (24 * timeHour)) ++ ")"
    else if ttl % timeHour = 0 then
      "TTL " ++ timeField ++ " + toIntervalHour(" ++ toString (ttl / timeHour) ++ ")"
    else if ttl % timeMinute = 0 then
      "TTL " ++ timeField ++ " + toIntervalMinute(" ++ toString (ttl / timeMinute) ++ ")"
    else
      "TTL " ++ timeField ++ " + toIntervalSecond(" ++ toString (ttl / timeSecond) ++ ")"
  else
    ""

/-- The units the TTL builder can choose from, largest first. -/
def ttlUnits : List Int := [24 * timeHour, timeHour, timeMinute, timeSecond]

/-- The rendering format of GenerateTTLExpr for each unit. -/
def intervalExpr (f : String) (u n : Int) : String :=
  if u = 24 * timeHour then
    "TTL " ++ f ++ " + toIntervalDay(" ++ toString n ++ ")"
  else if u = timeHour then
    "TTL " ++ f ++ " + toIntervalHour(" ++ toString n ++ ")"
  else if u = timeMinute then
    "TTL " ++ f ++ " + toIntervalMinute(" ++ toString n ++ ")"
  else
    "TTL " ++ f ++ " + toIntervalSecond(" ++ toString n ++ ")"

/-- Counterexample for C5 as stated: at 1.5 seconds (a legal positive
Duration) the builder renders a seconds interval with the quotient
truncated to 1, although no unit among day, hour, minute, second
evenly divides the duration — so the output is not expressed in an
evenly-dividing unit. -/
theorem generateTTLExpr_subsecond_cex :
    GenerateTTLExpr 1500000000 "Timestamp" = "TTL Timestamp + toIntervalSecond(1)"
    ∧ ¬ ((1500000000 : Int) % timeSecond = 0)
    ∧ ¬ ((1500000000 : Int) % timeMinute = 0)
    ∧ ¬ ((1500000000 : Int) % timeHour = 0)
    ∧ ¬ ((1500000000 : Int) % (24 * timeHour) = 0) := by
  refine ⟨?_, by decide, by decide, by decide, by decide⟩
  rw [GenerateTTLExpr, if_pos (by decide), if_neg (by decide), if_neg (by decide),
    if_neg (by decide)]
  decide

/-- C5 amended: a non-positive duration yields no TTL clause; a
positive duration that is a whole number of seconds is rendered in the
largest unit among day, hour, minute, second that evenly divides it
(durations that are not whole seconds fall back to truncated seconds,
as the counterexample shows). -/
theorem generateTTLExpr_unit_selection (ttl : Int) (f : String) :
    (ttl ≤ 0 → GenerateTTLExpr ttl f = "") ∧
    (0 < ttl → ttl % timeSecond = 0 →
      ∃ u, u ∈ ttlUnits ∧ ttl % u = 0 ∧
        (∀ v ∈ ttlUnits, ttl % v = 0 → v ≤ u) ∧
        GenerateTTLExpr ttl f = intervalExpr f u (ttl / u)) := by
  constructor
  · intro h
    rw [GenerateTTLExpr, if_neg (by omega)]
  · intro hpos hsec
    by_cases hday : ttl % (24 * timeHour) = 0
    · refine ⟨24 * timeHour, by simp [ttlUnits], hday, ?_, ?_⟩
      · intro v hv _
        simp only [ttlUnits, List.mem_cons, List.mem_singleton] at hv
        rcases hv with rfl | rfl | rfl | hv
        · exact le_refl _
        · decide
        · decide
        · simp only [List.not_mem_nil, or_false] at hv
          subst hv
          decide
      · rw [GenerateTTLExpr, if_pos hpos, if_pos hday, intervalExpr, if_pos rfl]
    · by_cases hhour : ttl % timeHour = 0
      · refine ⟨timeHour, by simp [ttlUnits], hhour, ?_, ?_⟩
        · intro v hv hvd
          simp only [ttlUnits, List.mem_cons, List.mem_singleton] at hv
          rcases hv with rfl | rfl | rfl | hv
          · exact absurd hvd hday
          · exact le_refl _
          · decide
          · simp only [List.not_mem_nil, or_false] at hv
            subst hv
            decide
        · rw [GenerateTTLExpr, if_pos hpos, if_neg hday, if_pos hhour, intervalExpr,
            if_neg (by decide), if_pos rfl]
      · by_cases hmin : ttl % timeMinute = 0
        · refine ⟨timeMinute, by simp [ttlUnits], hmin, ?_, ?_⟩
          · intro v hv hvd
            simp only [ttlUnits, List.mem_cons, List.mem_singleton] at hv
            rcases hv with rfl | rfl | rfl | hv
            · exact absurd hvd hday
            · exact absurd hvd hhour
            · exact le_refl _
            · simp only [List.not_mem_nil, or_false] at hv
              subst hv
              decide
          · rw [GenerateTTLExpr, if_pos hpos, if_neg hday, if_neg hhour, if_pos hmin,
              intervalExpr, if_neg (by decide), if_neg (by decide), if_pos rfl]
        · refine ⟨timeSecond, by simp [ttlUnits], hsec, ?_, ?_⟩
          · intro v hv hvd
            simp only [ttlUnits, List.mem_cons, List.mem_singleton] at hv
            rcases hv with rfl | rfl | rfl | hv
            · exact absurd hvd hday
            · exact absurd hvd hhour
            · exact absurd hvd hmin
            · simp only [List.not_mem_nil, or_false] at hv
              subst hv
              exact le_refl _
          · rw [GenerateTTLExpr, if_pos hpos, if_neg hday, if_neg hhour, if_neg hmin,
              intervalExpr, if_neg (by decide), if_neg (by decide), if_neg (by decide)]

/-- Witness for C5 amended: a duration of exactly 2 days picks the day
unit (the largest evenly-dividing one). -/
theorem generateTTLExpr_unit_selection_witness :
    ∃ u, u ∈ ttlUnits ∧ (172800000000000 : Int) % u = 0 ∧
      (∀ v ∈ ttlUnits, (172800000000000 : Int) % v = 0 → v ≤ u) ∧
      GenerateTTLExpr 172800000000000 "Timestamp" =
        intervalExpr "Timestamp" u (172800000000000 / u) :=
  (generateTTLExpr_unit_selection 172800000000000 "Timestamp").2 (by decide) (by decide)

/-- strings.Replace(s, "%s", rep, 1) at the character level: replace
the first (leftmost) occurrence of the two-character placeholder. -/
def repFirstPS (rep : List Char) : List Char → List Char
  | [] => []
  | [c] => [c]
  | c :: d :: t =>
    if c = '%' ∧ d = 's' then rep ++ t else c :: repFirstPS rep (d :: t)

/-- strings.Replace(s, "%s", rep, 1) on strings. -/
def replaceFirstPS (s rep : String) : String :=
  ⟨repFirstPS rep.data s.data⟩

/-- Number of (non-overlapping, leftmost-first) occurrences of the
placeholder "%s" in a character list. -/
def countPS : List Char → Nat
  | [] => 0
  | [_] => 0
  | c :: d :: t =>
    if c = '%' ∧ d = 's' then countPS t + 1 else countPS (d :: t)

/-- renderLogsTableSQL (logs exporter): substitute the five
configuration values for the template's placeholders in order —
database, table name, cluster clause, engine clause, TTL clause. -/
def renderLogsTableSQL (cfg : Config) (template : String) : String :=
  List.foldl replaceFirstPS template
    [cfg.database, getLogsTableName cfg, buildClusterClause cfg,
     buildLogsEngineClause cfg, buildTTLClause cfg]

/-- renderMetricTableSQL (metrics exporter): same scheme, with the
table name passed per metric kind. -/
def renderMetricTableSQL (cfg : Config) (template tableName : String) : String :=
  List.foldl replaceFirstPS template
    [cfg.database, tableName, buildMetricsClusterClause cfg,
     buildMetricsEngineClause cfg, buildMetricsTTLClause cfg]

theorem repFirstPS_cons_ne (rep : List Char) (c : Char) (rest : List Char)
    (hc : c ≠ '%') : repFirstPS rep (c :: rest) = c :: repFirstPS rep rest := by
  cases rest with
  | nil => rfl
  | cons d t =>
    have e : repFirstPS rep (c :: d :: t) =
        if c = '%' ∧ d = 's' then rep ++ t else c :: repFirstPS rep (d :: t) := rfl
    rw [e, if_neg]
    intro h
    exact hc h.1

theorem repFirstPS_hit (rep b : List Char) :
    repFirstPS rep ('%' :: 's' :: b) = rep ++ b := by
  have e : repFirstPS rep ('%' :: 's' :: b) =
      if ('%' : Char) = '%' ∧ ('s' : Char) = 's' then rep ++ b
      else '%' :: repFirstPS rep ('s' :: b) := rfl
  rw [e, if_pos ⟨rfl, rfl⟩]

theorem repFirstPS_append_no (rep a rest : List Char) (ha : '%' ∉ a) :
    repFirstPS rep (a ++ rest) = a ++ repFirstPS rep rest := by
  induction a with
  | nil => simp
  | cons c t ih =>
    have hc : c ≠ '%' := fun h => ha (h ▸ List.mem_cons_self c t)
    have ht : '%' ∉ t := fun h => ha (List.mem_cons_of_mem c h)
    rw [List.cons_append, repFirstPS_cons_ne rep c (t ++ rest) hc, ih ht,
      List.cons_append]

theorem countPS_zero : ∀ l : List Char, '%' ∉ l → countPS l = 0
  | [], _ => rfl
  | [_], _ => rfl
  | c :: d :: t, h => by
    have e : countPS (c :: d :: t) =
        if c = '%' ∧ d = 's' then countPS t + 1 else countPS (d :: t) := rfl
    rw [e, if_neg]
    · exact countPS_zero (d :: t) fun hm => h (List.mem_cons_of_mem c hm)
    · intro hcd
      exact h (hcd.1 ▸ List.mem_cons_self c (d :: t))

/-- A plain configuration (no cluster, no TTL, default table names)
used by the rendering counterexample. -/
def cfgD : Config :=
  { endpoint := "", username := "", password := "",
    database := "otel", tableName := "",
    connectionParams := fun _ => none,
    createSchema := true, compress := "", asyncInsert := true,
    ttl := 0, ttlDays := 0, tracesTableName := "", logsTableName := "",
    tableEngine := "", clusterName := "" }

/-- Counterexample for C1 as stated: a template with six placeholders
and the five substitutions renders to a partially-substituted SQL
string that still contains the placeholder "%s"; no error of any kind
is produced (both renderers are total, String-valued functions — there
is no TemplateError in the code). -/
theorem render_template_mismatch_cex :
    renderLogsTableSQL cfgD "%s %s %s %s %s %s" = "otel otel_logs  MergeTree()  %s"
    ∧ countPS (renderLogsTableSQL cfgD "%s %s %s %s %s %s").data = 1
    ∧ renderMetricTableSQL cfgD "%s %s %s %s %s %s" "otel_metrics_gauge"
        = "otel otel_metrics_gauge  MergeTree()  %s"
    ∧ countPS (renderMetricTableSQL cfgD "%s %s %s %s %s %s" "otel_metrics_gauge").data
        = 1 := by
  refine ⟨by decide, by decide, by decide, by decide⟩

theorem foldl_replaceFirstPS_data (t : String) (l : List String) :
    (List.foldl replaceFirstPS t l).data =
      List.foldl (fun s r => repFirstPS r s) t.data (l.map String.data) := by
  induction l generalizing t with
  | nil => rfl
  | cons x xs ih =>
    simp only [List.foldl, List.map_cons]
    exact ih (replaceFirstPS t x)

theorem foldl5_subst (v1 v2 v3 v4 v5 a0 a1 a2 a3 a4 a5 : List Char)
    (h0 : '%' ∉ a0) (h1 : '%' ∉ a1) (h2 : '%' ∉ a2) (h3 : '%' ∉ a3) (h4 : '%' ∉ a4)
    (hv1 : '%' ∉ v1) (hv2 : '%' ∉ v2) (hv3 : '%' ∉ v3) (hv4 : '%' ∉ v4) :
    List.foldl (fun s r => repFirstPS r s)
        (a0 ++ '%' :: 's' :: (a1 ++ '%' :: 's' :: (a2 ++ '%' :: 's' ::
          (a3 ++ '%' :: 's' :: (a4 ++ '%' :: 's' :: a5)))))
        [v1, v2, v3, v4, v5]
      = a0 ++ (v1 ++ (a1 ++ (v2 ++ (a2 ++ (v3 ++ (a3 ++ (v4 ++ (a4 ++ (v5 ++ a5))))))))) := by
  simp only [List.foldl]
  rw [repFirstPS_append_no v1 a0 _ h0, repFirstPS_hit]
  rw [repFirstPS_append_no v2 a0 _ h0, repFirstPS_append_no v2 v1 _ hv1,
    repFirstPS_append_no v2 a1 _ h1, repFirstPS_hit]
  rw [repFirstPS_append_no v3 a0 _ h0, repFirstPS_append_no v3 v1 _ hv1,
    repFirstPS_append_no v3 a1 _ h1, repFirstPS_append_no v3 v2 _ hv2,
    repFirstPS_append_no v3 a2 _ h2, repFirstPS_hit]
  rw [repFirstPS_append_no v4 a0 _ h0, repFirstPS_append_no v4 v1 _ hv1,
    repFirstPS_append_no v4 a1 _ h1, repFirstPS_append_no v4 v2 _ hv2,
    repFirstPS_append_no v4 a2 _ h2, repFirstPS_append_no v4 v3 _ hv3,
    repFirstPS_append_no v4 a3 _ h3, repFirstPS_hit]
  rw [repFirstPS_append_no v5 a0 _ h0, repFirstPS_append_no v5 v1 _ hv1,
    repFirstPS_append_no v5 a1 _ h1, repFirstPS_append_no v5 v2 _ hv2,
    repFirstPS_append_no v5 a2 _ h2, repFirstPS_append_no v5 v3 _ hv3,
    repFirstPS_append_no v5 a3 _ h3, repFirstPS_append_no v5 v4 _ hv4,
    repFirstPS_append_no v5 a4 _ h4, repFirstPS_hit]

/-- C1 amended: rendering is total and never fails — it substitutes
the five values for the first five placeholders left-to-right (shown
here for templates with exactly five placeholders and '%'-free
segments and substitution values: the output is the interleaving and
retains no placeholder).  A placeholder-count mismatch is not
detected: a template with six placeholders keeps an un-substituted
"%s" (see the counterexample), with no TemplateError anywhere. -/
theorem render_sequential_substitution
    (cfg : Config) (tableName t0 t1 t2 t3 t4 t5 : String)
    (h0 : '%' ∉ t0.data) (h1 : '%' ∉ t1.data) (h2 : '%' ∉ t2.data)
    (h3 : '%' ∉ t3.data) (h4 : '%' ∉ t4.data) (h5 : '%' ∉ t5.data)
    (hdb : '%' ∉ cfg.database.data)
    (htbl : '%' ∉ (getLogsTableName cfg).data)
    (htn : '%' ∉ tableName.data)
    (hcl : '%' ∉ (buildClusterClause cfg).data)
    (hmcl : '%' ∉ (buildMetricsClusterClause cfg).data)
    (hen : '%' ∉ (buildLogsEngineClause cfg).data)
    (hmen : '%' ∉ (buildMetricsEngineClause cfg).data)
    (httl : '%' ∉ (buildTTLClause cfg).data)
    (hmttl : '%' ∉ (buildMetricsTTLClause cfg).data) :
    renderLogsTableSQL cfg
        (t0 ++ "%s" ++ t1 ++ "%s" ++ t2 ++ "%s" ++ t3 ++ "%s" ++ t4 ++ "%s" ++ t5)
      = t0 ++ cfg.database ++ t1 ++ getLogsTableName cfg ++ t2 ++ buildClusterClause cfg
          ++ t3 ++ buildLogsEngineClause cfg ++ t4 ++ buildTTLClause cfg ++ t5
    ∧ countPS (renderLogsTableSQL cfg
        (t0 ++ "%s" ++ t1 ++ "%s" ++ t2 ++ "%s" ++ t3 ++ "%s" ++ t4 ++ "%s" ++ t5)).data = 0
    ∧ renderMetricTableSQL cfg
        (t0 ++ "%s" ++ t1 ++ "%s" ++ t2 ++ "%s" ++ t3 ++ "%s" ++ t4 ++ "%s" ++ t5) tableName
      = t0 ++ cfg.database ++ t1 ++ tableName ++ t2 ++ buildMetricsClusterClause cfg
          ++ t3 ++ buildMetricsEngineClause cfg ++ t4 ++ buildMetricsTTLClause cfg ++ t5
    ∧ countPS (renderMetricTableSQL cfg
        (t0 ++ "%s" ++ t1 ++ "%s" ++ t2 ++ "%s" ++ t3 ++ "%s" ++ t4 ++ "%s" ++ t5)
        tableName).data = 0 := by
  have hps : ("%s" : String).data = ['%', 's'] := rfl
  have hT : (t0 ++ "%s" ++ t1 ++ "%s" ++ t2 ++ "%s" ++ t3 ++ "%s" ++ t4 ++ "%s" ++ t5).data
      = t0.data ++ '%' :: 's' :: (t1.data ++ '%' :: 's' :: (t2.data ++ '%' :: 's' ::
          (t3.data ++ '%' :: 's' :: (t4.data ++ '%' :: 's' :: t5.data)))) := by
    simp [String.data_append, hps, List.append_assoc]
  have hlogs : (renderLogsTableSQL cfg
      (t0 ++ "%s" ++ t1 ++ "%s" ++ t2 ++ "%s" ++ t3 ++ "%s" ++ t4 ++ "%s" ++ t5)).data
      = t0.data ++ (cfg.database.data ++ (t1.data ++ ((getLogsTableName cfg).data ++
          (t2.data ++ ((buildClusterClause cfg).data ++ (t3.data ++
          ((buildLogsEngineClause cfg).data ++ (t4.data ++
          ((buildTTLClause cfg).data ++ t5.data))))))))) := by
    rw [renderLogsTableSQL, foldl_replaceFirstPS_data, hT]
    simp only [List.map_cons, List.map_nil]
    exact foldl5_subst _ _ _ _ _ _ _ _ _ _ _ h0 h1 h2 h3 h4 hdb htbl hcl hen
  have hmet : (renderMetricTableSQL cfg
      (t0 ++ "%s" ++ t1 ++ "%s" ++ t2 ++ "%s" ++ t3 ++ "%s" ++ t4 ++ "%s" ++ t5)
      tableName).data
      = t0.data ++ (cfg.database.data ++ (t1.data ++ (tableName.data ++
          (t2.data ++ ((buildMetricsClusterClause cfg).data ++ (t3.data ++
          ((buildMetricsEngineClause cfg).data ++ (t4.data ++
          ((buildMetricsTTLClause cfg).data ++ t5.data))))))))) := by
    rw [renderMetricTableSQL, foldl_replaceFirstPS_data, hT]
    simp only [List.map_cons, List.map_nil]
    exact foldl5_subst _ _ _ _ _ _ _ _ _ _ _ h0 h1 h2 h3 h4 hdb htn hmcl hmen
  refine ⟨?_, ?_, ?_, ?_⟩
  · apply String.ext
    rw [hlogs]
    simp [String.data_append, List.append_assoc]
  · rw [hlogs]
    apply countPS_zero
    simp [List.mem_append, h0, h1, h2, h3, h4, h5, hdb, htbl, hcl, hen, httl]
  · apply String.ext
    rw [hmet]
    simp [String.data_append, List.append_assoc]
  · rw [hmet]
    apply countPS_zero
    simp [List.mem_append, h0, h1, h2, h3, h4, h5, hdb, htn, hmcl, hmen, hmttl]

/-- Witness for C1 amended: a five-placeholder template over the plain
configuration renders fully, with no placeholder left. -/
theorem render_sequential_substitution_witness :
    renderLogsTableSQL cfgD "CREATE TABLE x%s.%s y%s z%s w%s;"
      = "CREATE TABLE x" ++ cfgD.database ++ "." ++ getLogsTableName cfgD ++ " y"
          ++ buildClusterClause cfgD ++ " z" ++ buildLogsEngineClause cfgD ++ " w"
          ++ buildTTLClause cfgD ++ ";"
    ∧ countPS (renderLogsTableSQL cfgD "CREATE TABLE x%s.%s y%s z%s w%s;").data = 0
    ∧ renderMetricTableSQL cfgD "CREATE TABLE x%s.%s y%s z%s w%s;" "otel_metrics_sum"
      = "CREATE TABLE x" ++ cfgD.database ++ "." ++ "otel_metrics_sum" ++ " y"
          ++ buildMetricsClusterClause cfgD ++ " z" ++ buildMetricsEngineClause cfgD
          ++ " w" ++ buildMetricsTTLClause cfgD ++ ";"
    ∧ countPS (renderMetricTableSQL cfgD "CREATE TABLE x%s.%s y%s z%s w%s;"
        "otel_metrics_sum").data = 0 := by
  have h := render_sequential_substitution cfgD "otel_metrics_sum"
    "CREATE TABLE x" "." " y" " z" " w" ";"
    (by decide) (by decide) (by decide) (by decide) (by decide) (by decide)
    (by decide) (by decide) (by decide) (by decide) (by decide) (by decide)
    (by decide) (by decide) (by decide)
  simpa using h

/-- A database handle (sql.DB) as the lifecycle observes it: the
outcome of Ping, the outcome of Close, and the outcome of ExecContext
per statement text.  Error values are strings (none = success). -/
structure DB where
  pingResult : Option String
  closeResult : Option String
  execResult : String → Option String

/-- The external world the lifecycle runs against: url.Parse, the
driver's sql.Open (keyed by the built URL), and the embedded template
store's ReadFile (keyed by template file name). -/
structure Env where
  parse : String → Option URL
  openConn : URL → Except String DB
  loadTemplate : String → Except String String

/-- The text of the two buildDSN errors. -/
def dsnErrorMessage : DSNError → String
  | .missingEndpoint => "endpoint must be specified"
  | .invalidEndpoint => "invalid endpoint format"

/-- buildDB (clickhouse.go): build the DSN for the given database and
open a lazy connection on it. -/
def buildDB (env : Env) (cfg : Config) (database : String) : Except String DB :=
  match buildDSN env.parse cfg database with
  | .error e => .error (dsnErrorMessage e)
  | .ok dsn => env.openConn dsn

/-- buildDBConnection (clickhouse.go): buildDB on the configured
database. -/
def buildDBConnection (env : Env) (cfg : Config) : Except String DB :=
  buildDB env cfg cfg.database

/-- The observable I/O actions of a provisioning pass: opening the
control connection (with the DSN path it is scoped to), executing DDL
on it, closing it; executing DDL on the exporter's own handle;
pinging the exporter's own handle. -/
inductive Event where
  | ctrlOpened (path : String)
  | ctrlExec (stmt : String)
  | ctrlClosed
  | dbExec (stmt : String)
  | dbPing
deriving DecidableEq

/-- createDatabase (clickhouse.go): skip when createSchema is off or
the database is empty/"default"; else open a control connection
against the default database, run one idempotent CREATE DATABASE and
close the control connection (deferred) whether or not the statement
succeeded.  Returns the error result plus the event trace. -/
def createDatabase (env : Env) (cfg : Config) : Option String × List Event :=
  if cfg.createSchema = false then (none, [])
  else if cfg.database = "" ∨ cfg.database = "default" then (none, [])
  else
    match buildDSN env.parse cfg "default" with
    | .error e => (some ("failed to build db connection: " ++ dsnErrorMessage e), [])
    | .ok dsn =>
      match env.openConn dsn with
      | .error e => (some ("failed to build db connection: " ++ e), [])
      | .ok db =>
        let stmt := "CREATE DATABASE IF NOT EXISTS " ++ cfg.database
        match db.execResult stmt with
        | some e => (some ("failed to create database: " ++ e),
            [.ctrlOpened dsn.path, .ctrlExec stmt, .ctrlClosed])
        | none => (none, [.ctrlOpened dsn.path, .ctrlExec stmt, .ctrlClosed])

/-- createLogsTable (logs exporter): load the logs template, render it
and execute the DDL on the exporter's handle (executeSQL; the handle
is present on this path since start only calls it when db is non-nil). -/
def createLogsTable (env : Env) (cfg : Config) (db : DB) : Option String × List Event :=
  match env.loadTemplate "logs_table.sql" with
  | .error e => (some ("failed to load logs table SQL template: " ++ e), [])
  | .ok tmpl =>
    let sql := renderLogsTableSQL cfg tmpl
    match db.execResult sql with
    | some e => (some ("failed to create logs table: " ++ e), [.dbExec sql])
    | none => (none, [.dbExec sql])

/-- The logs exporter: its configuration and optional handle. -/
structure LogsExporter where
  config : Config
  db : Option DB

/-- The metrics exporter has the same shape. -/
structure MetricsExporter where
  config : Config
  db : Option DB

/-- newLogsExporter: connect only when an endpoint is configured; on
connection-build failure log a warning and fall back to log-only mode
(db = none); the constructor itself always returns a nil error. -/
def newLogsExporter (env : Env) (cfg : Config) : LogsExporter × Option String :=
  let db :=
    if cfg.endpoint ≠ "" then
      match buildDBConnection env cfg with
      | .ok d => some d
      | .error _ => none
    else none
  ({ config := cfg, db := db }, none)

/-- start (logs exporter): with a handle, create the database, create
the logs table, then ping; the first failing step's error is returned
and aborts startup.  Without a handle, start succeeds doing nothing. -/
def startLogs (env : Env) (e : LogsExporter) : Option String × List Event :=
  match e.db with
  | none => (none, [])
  | some db =>
    match createDatabase env e.config with
    | (some err, evs) => (some err, evs)
    | (none, evs1) =>
      match createLogsTable env e.config db with
      | (some err, evs2) => (some err, evs1 ++ evs2)
      | (none, evs2) =>
        match db.pingResult with
        | some err => (some err, evs1 ++ evs2 ++ [.dbPing])
        | none => (none, evs1 ++ evs2 ++ [.dbPing])

/-- shutdown (logs exporter): return db.Close()'s result when a handle
exists, nil otherwise. -/
def shutdownLogs (e : LogsExporter) : Option String :=
  match e.db with
  | some db => db.closeResult
  | none => none

/-- shutdown (metrics exporter): identical body. -/
def shutdownMetrics (e : MetricsExporter) : Option String :=
  match e.db with
  | some db => db.closeResult
  | none => none

/-- A handle whose Close fails, for the shutdown counterexample. -/
def dbFailClose : DB :=
  { pingResult := none, closeResult := some "close failed: connection busy",
    execResult := fun _ => none }

/-- Counterexample for C2 as stated: with a non-nil handle whose Close
fails, shutdown returns that error to the caller (the code is
`return e.db.Close()`) instead of returning nil — for both the logs
and the metrics exporter. -/
theorem shutdown_propagates_close_error_cex :
    shutdownLogs { config := cfgD, db := some dbFailClose }
        = some "close failed: connection busy"
    ∧ shutdownMetrics { config := cfgD, db := some dbFailClose }
        = some "close failed: connection busy" :=
  ⟨rfl, rfl⟩

/-- C2 amended: with a nil handle shutdown returns nil; with a non-nil
handle shutdown returns exactly the result of closing the handle,
propagating a close error to the caller rather than swallowing it. -/
theorem shutdown_returns_close_result (e : LogsExporter) (m : MetricsExporter) :
    (e.db = none → shutdownLogs e = none) ∧
    (∀ d, e.db = some d → shutdownLogs e = d.closeResult) ∧
    (m.db = none → shutdownMetrics m = none) ∧
    (∀ d, m.db = some d → shutdownMetrics m = d.closeResult) := by
  refine ⟨?_, ?_, ?_, ?_⟩
  · intro h
    simp [shutdownLogs, h]
  · intro d h
    simp [shutdownLogs, h]
  · intro h
    simp [shutdownMetrics, h]
  · intro d h
    simp [shutdownMetrics, h]

/-- Witness for C2 amended: a nil handle shuts down with nil; a handle
with a failing Close shuts down with exactly that close result. -/
theorem shutdown_returns_close_result_witness :
    shutdownLogs { config := cfgD, db := none } = none
    ∧ shutdownLogs { config := cfgD, db := some dbFailClose } = dbFailClose.closeResult
    ∧ shutdownMetrics { config := cfgD, db := none } = none
    ∧ shutdownMetrics { config := cfgD, db := some dbFailClose } = dbFailClose.closeResult := by
  refine ⟨?_, ?_, ?_, ?_⟩
  · exact (shutdown_returns_close_result { config := cfgD, db := none }
      { config := cfgD, db := none }).1 rfl
  · exact (shutdown_returns_close_result { config := cfgD, db := some dbFailClose }
      { config := cfgD, db := none }).2.1 dbFailClose rfl
  · exact (shutdown_returns_close_result { config := cfgD, db := none }
      { config := cfgD, db := none }).2.2.1 rfl
  · exact (shutdown_returns_close_result { config := cfgD, db := none }
      { config := cfgD, db := some dbFailClose }).2.2.2 dbFailClose rfl

/-- C9: createDatabase is a successful no-op (no DDL, no connection)
when createSchema is off or the database name is empty or "default";
otherwise, once the control connection opens, its DSN is scoped to the
default database and the trace is exactly open, one CREATE DATABASE IF
NOT EXISTS statement, close — the close happening whether or not the
statement succeeded, and the result reflecting the statement's
outcome. -/
theorem createDatabase_gating (env : Env) (cfg : Config) (dsn : URL) (db : DB) :
    (cfg.createSchema = false → createDatabase env cfg = (none, [])) ∧
    (cfg.database = "" ∨ cfg.database = "default" → createDatabase env cfg = (none, [])) ∧
    (cfg.createSchema = true → cfg.database ≠ "" → cfg.database ≠ "default" →
      buildDSN env.parse cfg "default" = .ok dsn → env.openConn dsn = .ok db →
      dsn.path = "default" ∧
      (createDatabase env cfg).2 =
        [Event.ctrlOpened "default",
         Event.ctrlExec ("CREATE DATABASE IF NOT EXISTS " ++ cfg.database),
         Event.ctrlClosed] ∧
      ((createDatabase env cfg).1 = none ↔
        db.execResult ("CREATE DATABASE IF NOT EXISTS " ++ cfg.database) = none)) := by
  refine ⟨?_, ?_, ?_⟩
  · intro h
    simp [createDatabase, h]
  · intro h
    rw [createDatabase]
    split <;> simp [h]
  · intro hcs hne hnd hok hopen
    have hcs' : ¬(cfg.createSchema = false) := by simp [hcs]
    have h2 : ¬(cfg.database = "" ∨ cfg.database = "default") := by
      intro h
      rcases h with h | h
      · exact hne h
      · exact hnd h
    have hpath : dsn.path = "default" := by
      unfold buildDSN at hok
      split at hok
      · exact absurd hok (by simp)
      · split at hok
        · exact absurd hok (by simp)
        · rw [Except.ok.injEq] at hok
          rw [← hok]
          simp
    refine ⟨hpath, ?_, ?_⟩
    · simp only [createDatabase, if_neg hcs', if_neg h2, hok, hopen]
      cases hex : db.execResult ("CREATE DATABASE IF NOT EXISTS " ++ cfg.database) <;>
        simp [hex, hpath]
    · simp only [createDatabase, if_neg hcs', if_neg h2, hok, hopen]
      cases hex : db.execResult ("CREATE DATABASE IF NOT EXISTS " ++ cfg.database) <;>
        simp [hex]

/-- A handle on which every operation succeeds. -/
def dbOK : DB :=
  { pingResult := none, closeResult := none, execResult := fun _ => none }

/-- An environment where parsing, opening and template loading all
succeed (the loaded template has the five placeholders). -/
def envGood : Env :=
  { parse := parseA, openConn := fun _ => .ok dbOK,
    loadTemplate := fun _ => .ok "CREATE TABLE IF NOT EXISTS %s.%s %s E%s T%s" }

/-- The control-connection DSN buildDSN produces for envGood/cfgA. -/
def dsnD : URL := (buildDSN parseA cfgA "default").toOption.getD urlA

/-- Witness for C9: on a concrete healthy environment with database
"cfgdb", the control DSN is scoped to "default" and the trace is
open, the one CREATE DATABASE statement, close. -/
theorem createDatabase_gating_witness :
    dsnD.path = "default" ∧
    (createDatabase envGood cfgA).2 =
      [Event.ctrlOpened "default",
       Event.ctrlExec ("CREATE DATABASE IF NOT EXISTS " ++ cfgA.database),
       Event.ctrlClosed] ∧
    ((createDatabase envGood cfgA).1 = none ↔
      dbOK.execResult ("CREATE DATABASE IF NOT EXISTS " ++ cfgA.database) = none) :=
  (createDatabase_gating envGood cfgA dsnD dbOK).2.2 rfl (by decide) (by decide) rfl rfl

/-- C8: the constructor never fails — a connection-build failure
leaves the handle absent (log-only mode) and still returns the
exporter with a nil error; with an empty endpoint no connection is
ever built and start succeeds as a no-op; with a handle present,
start succeeds iff database creation, table creation and ping all
succeed, and a database-creation failure propagates as start's error
with no further provisioning steps executed. -/
theorem construction_fallback_start_fatal
    (env : Env) (cfg : Config) (e : LogsExporter) (db : DB) :
    ((newLogsExporter env cfg).2 = none) ∧
    ((∃ err, buildDBConnection env cfg = .error err) →
      (newLogsExporter env cfg).1.db = none) ∧
    (cfg.endpoint = "" →
      (newLogsExporter env cfg).1.db = none ∧
      startLogs env (newLogsExporter env cfg).1 = (none, [])) ∧
    (e.db = some db →
      ((startLogs env e).1 = none ↔
        (createDatabase env e.config).1 = none ∧
        (createLogsTable env e.config db).1 = none ∧
        db.pingResult = none)) ∧
    (e.db = some db → ∀ err, (createDatabase env e.config).1 = some err →
      startLogs env e = (some err, (createDatabase env e.config).2)) := by
  refine ⟨rfl, ?_, ?_, ?_, ?_⟩
  · rintro ⟨err, herr⟩
    by_cases he : cfg.endpoint = ""
    · simp [newLogsExporter, he]
    · simp [newLogsExporter, he, herr]
  · intro he
    refine ⟨?_, ?_⟩
    · simp [newLogsExporter, he]
    · simp [newLogsExporter, startLogs, he]
  · intro h
    rcases hcd : createDatabase env e.config with ⟨cres, cevs⟩
    cases cres with
    | some err => simp [startLogs, h, hcd]
    | none =>
      rcases hct : createLogsTable env e.config db with ⟨tres, tevs⟩
      cases tres with
      | some err => simp [startLogs, h, hcd, hct]
      | none =>
        cases hpg : db.pingResult with
        | some err => simp [startLogs, h, hcd, hct, hpg]
        | none => simp [startLogs, h, hcd, hct, hpg]
  · intro h err hcd
    rcases hp : createDatabase env e.config with ⟨cres, cevs⟩
    rw [hp] at hcd
    simp only at hcd
    subst hcd
    simp [startLogs, h, hp]

/-- An environment whose sql.Open always fails, for the log-only
fallback witness. -/
def envBad : Env :=
  { parse := parseA, openConn := fun _ => .error "dial tcp: connection refused",
    loadTemplate := fun _ => .ok "x" }

/-- A logs exporter holding a healthy handle. -/
def eGood : LogsExporter := { config := cfgA, db := some dbOK }

/-- Witness for C8: connection failure at construction leaves db
absent with a nil constructor error; empty endpoint makes start a
trivial success; with a handle, start's success is equivalent to all
three provisioning/ping steps succeeding. -/
theorem construction_fallback_start_fatal_witness :
    (newLogsExporter envBad cfgA).2 = none ∧
    (newLogsExporter envBad cfgA).1.db = none ∧
    (newLogsExporter envGood cfgD).1.db = none ∧
    startLogs envGood (newLogsExporter envGood cfgD).1 = (none, []) ∧
    ((startLogs envGood eGood).1 = none ↔
      ((createDatabase envGood eGood.config).1 = none ∧
       (createLogsTable envGood eGood.config dbOK).1 = none ∧
       dbOK.pingResult = none)) :=
  ⟨(construction_fallback_start_fatal envBad cfgA eGood dbOK).1,
   (construction_fallback_start_fatal envBad cfgA eGood dbOK).2.1
     ⟨"dial tcp: connection refused", rfl⟩,
   ((construction_fallback_start_fatal envGood cfgD eGood dbOK).2.2.1 rfl).1,
   ((construction_fallback_start_fatal envGood cfgD eGood dbOK).2.2.1 rfl).2,
   (construction_fallback_start_fatal envGood cfgA eGood dbOK).2.2.2.1 rfl⟩

/-- A log record as pushLogs reads it (severity, body; the timestamp
and other fields feed only log output). -/
structure LogRecord where
  severityText : String
  body : String

/-- A scope-logs entry: its log records. -/
structure ScopeLogs where
  logRecords : List LogRecord

/-- A resource-logs entry: its scope-logs entries. -/
structure ResourceLogs where
  scopeLogs : List ScopeLogs

/-- plog.Logs: the resource-logs collection. -/
structure Logs where
  resourceLogs : List ResourceLogs

/-- A metric as pushMetrics reads it. -/
structure Metric where
  name : String

/-- A scope-metrics entry: its metrics. -/
structure ScopeMetrics where
  metrics : List Metric

/-- A resource-metrics entry: its scope-metrics entries. -/
structure ResourceMetrics where
  scopeMetrics : List ScopeMetrics

/-- pmetric.Metrics: the resource-metrics collection. -/
structure Metrics where
  resourceMetrics : List ResourceMetrics

/-- pushLogs (logs exporter): walk resources (indexed) and scopes; per
scope iteration, when the resource index i satisfies i mod 12 = 5,
overwrite the processing error with the simulated demo error; return
the final error (logging, totals and the Detailed branch produce no
observable result).  The exporter receiver is unused by the returned
value. -/
def pushLogs (_e : LogsExporter) (ld : Logs) : Option String :=
  List.foldl
    (fun acc p =>
      List.foldl
        (fun acc2 _ =>
          if p.1 % 12 = 5 then
            some ("demo error: simulated error in log processing (resource "
              ++ toString p.1 ++ ")")
          else acc2)
        acc p.2.scopeLogs)
    none (List.enumFrom 0 ld.resourceLogs)

/-- pushMetrics (metrics exporter): the same walk with the residue
11 mod 15 on the resource index. -/
def pushMetrics (_e : MetricsExporter) (md : Metrics) : Option String :=
  List.foldl
    (fun acc p =>
      List.foldl
        (fun acc2 _ =>
          if p.1 % 15 = 11 then
            some ("demo error: simulated error in metric processing (resource "
              ++ toString p.1 ++ ")")
          else acc2)
        acc p.2.scopeMetrics)
    none (List.enumFrom 0 md.resourceMetrics)

instance decListEqNil {β : Type} (xs : List β) : Decidable (xs = []) :=
  match xs with
  | [] => .isTrue rfl
  | _ :: _ => .isFalse (by simp)

theorem inner_simerr_foldl {β : Type} (cond : Prop) [Decidable cond] (s : String)
    (acc : Option String) (xs : List β) :
    List.foldl (fun a (_ : β) => if cond then some s else a) acc xs
      = if cond ∧ xs ≠ [] then some s else acc := by
  induction xs generalizing acc with
  | nil => simp
  | cons x t ih =>
    rw [List.foldl_cons, ih]
    by_cases hc : cond <;> by_cases ht : t = [] <;> simp [hc, ht]

theorem foldl_simerr_ne_none {α β : Type} (f : α → List β) (m r : Nat)
    (msg : Nat → String) (d : α) :
    ∀ (l : List α) (n : Nat) (acc : Option String),
      (List.foldl
          (fun acc p =>
            List.foldl (fun acc2 (_ : β) => if p.1 % m = r then some (msg p.1) else acc2)
              acc (f p.2))
          acc (List.enumFrom n l) ≠ none)
        ↔ acc ≠ none ∨ ∃ k, k < l.length ∧ (n + k) % m = r ∧ f (l.getD k d) ≠ []
  | [], n, acc => by simp
  | a :: t, n, acc => by
    have he : List.enumFrom n (a :: t) = (n, a) :: List.enumFrom (n + 1) t := rfl
    rw [he, List.foldl_cons]
    dsimp only
    rw [inner_simerr_foldl (n % m = r) (msg n) acc (f a)]
    rw [foldl_simerr_ne_none f m r msg d t (n + 1)]
    by_cases hc : n % m = r ∧ f a ≠ []
    · rw [if_pos hc]
      constructor
      · intro _
        exact Or.inr ⟨0, Nat.succ_pos _, by simpa using hc.1, by simpa using hc.2⟩
      · intro _
        simp
    · rw [if_neg hc]
      constructor
      · rintro (ha | ⟨k, hk, hkr, hkf⟩)
        · exact Or.inl ha
        · refine Or.inr ⟨k + 1, by simp only [List.length_cons]; omega, ?_, ?_⟩
          · have : n + (k + 1) = n + 1 + k := by omega
            rw [this]
            exact hkr
          · simpa [List.getD_cons_succ] using hkf
      · rintro (ha | ⟨k, hk, hkr, hkf⟩)
        · exact Or.inl ha
        · cases k with
          | zero =>
            exfalso
            exact hc ⟨by simpa using hkr, by simpa [List.getD_cons_zero] using hkf⟩
          | succ j =>
            refine Or.inr ⟨j, by simp only [List.length_cons] at hk; omega, ?_, ?_⟩
            · have : n + 1 + j = n + (j + 1) := by omega
              rw [this]
              exact hkr
            · simpa [List.getD_cons_succ] using hkf

/-- C10: the push paths inject deterministic synthetic failures
independent of the handle and configuration: pushLogs fails iff some
resource index i with i mod 12 = 5 carries at least one scope-logs
entry, pushMetrics fails iff some resource index i with i mod 15 = 11
carries at least one scope-metrics entry; the results do not depend on
the exporter value (in particular not on database connectivity). -/
theorem push_synthetic_errors (e : LogsExporter) (em : MetricsExporter)
    (ld : Logs) (md : Metrics) :
    (pushLogs e ld ≠ none ↔
      ∃ k, k < ld.resourceLogs.length ∧ k % 12 = 5 ∧
        (ld.resourceLogs.getD k ⟨[]⟩).scopeLogs ≠ []) ∧
    (pushMetrics em md ≠ none ↔
      ∃ k, k < md.resourceMetrics.length ∧ k % 15 = 11 ∧
        (md.resourceMetrics.getD k ⟨[]⟩).scopeMetrics ≠ []) ∧
    (∀ e2 : LogsExporter, pushLogs e2 ld = pushLogs e ld) ∧
    (∀ em2 : MetricsExporter, pushMetrics em2 md = pushMetrics em md) := by
  refine ⟨?_, ?_, fun _ => rfl, fun _ => rfl⟩
  · have H := foldl_simerr_ne_none (fun rl : ResourceLogs => rl.scopeLogs) 12 5
      (fun i => "demo error: simulated error in log processing (resource "
        ++ toString i ++ ")") ⟨[]⟩ ld.resourceLogs 0 none
    simpa [pushLogs] using H
  · have H := foldl_simerr_ne_none (fun rm : ResourceMetrics => rm.scopeMetrics) 15 11
      (fun i => "demo error: simulated error in metric processing (resource "
        ++ toString i ++ ")") ⟨[]⟩ md.resourceMetrics 0 none
    simpa [pushMetrics] using H

end Myexporter
